import Mathlib

/-!
Shallow embedding of `backend/main.py` of the Health Atlas provider-validation
service: JSON-like values, the provider-record normalization
(`normalize_provider_data`), the frontend formatter
(`format_result_for_frontend`), the per-record worker of the `/validate-file`
streaming endpoint, the `/validate-single` endpoint, the bounded worker pool,
and the radar-chart dimension table of `/api/analytics/confidence-breakdown`.
The validation agent itself (`agent.py`) is not part of the backend file; the
routing policy it applies is modelled from the specification where a claim
needs it, in definitions marked `Modelled from the spec`.
-/

namespace HealthAtlas

/-- JSON-like Python values as they flow through `main.py`: `None`, booleans,
numbers (modelled as rationals), strings, lists, and dicts (association lists
in insertion order with unique keys). -/
inductive JVal where
  | null : JVal
  | bool : Bool → JVal
  | num : ℚ → JVal
  | str : String → JVal
  | list : List JVal → JVal
  | obj : List (String × JVal) → JVal

/-- A Python dict with string keys, in insertion order. -/
abbrev Dict := List (String × JVal)

/-- Python truthiness, `bool(x)`, for the embedded values. -/
def truthy : JVal → Bool
  | .null => false
  | .bool b => b
  | .num q => decide (q ≠ 0)
  | .str s => decide (s ≠ "")
  | .list xs => !xs.isEmpty
  | .obj kvs => !kvs.isEmpty

/-- Python `a or b`. -/
def pyOr (a b : JVal) : JVal := if truthy a then a else b

/-- Python `d.get(k)` (absent key gives `None`; see `dgetD` for defaults). -/
def dget (d : Dict) (k : String) : Option JVal := List.lookup k d

/-- Python `d.get(k, v)`. -/
def dgetD (d : Dict) (k : String) (v : JVal) : JVal := (dget d k).getD v

/-- View a value as a mapping.  In Python a non-mapping value in the positions
where this is used raises on the subsequent `.get`/`.items` (inside a worker
such an exception is caught and becomes an ERROR result); the verified
properties below only exercise mapping-valued fields, and the embedding sends
every other value to the empty mapping. -/
def asObj : JVal → Dict
  | .obj kvs => kvs
  | _ => []

/-- Python `d.get(k, {})` followed by use as a mapping. -/
def dgetObj (d : Dict) (k : String) : Dict := asObj (dgetD d k (.obj []))

/-- Function `normalize_provider_data` of `backend/main.py` (lines 91-105): canonical
field names with `or`-fallbacks over the input's field-name variants. -/
def normalize_provider_data (provider_info : Dict) : Dict :=
  [("full_name", pyOr (dgetD provider_info "full_name" .null) (dgetD provider_info "fullName" (.str ""))),
   ("NPI", pyOr (dgetD provider_info "NPI" .null) (dgetD provider_info "npi" (.str ""))),
   ("address", dgetD provider_info "address" (.str "")),
   ("city", dgetD provider_info "city" (.str "")),
   ("state", dgetD provider_info "state" (.str "")),
   ("zip_code", pyOr (dgetD provider_info "zip_code" .null) (dgetD provider_info "zipCode" (.str ""))),
   ("website", dgetD provider_info "website" (.str "")),
   ("specialty", dgetD provider_info "specialty" (.str "")),
   ("phone", dgetD provider_info "phone" (.str "")),
   ("license_number", pyOr (dgetD provider_info "license_number" .null) (dgetD provider_info "license" (.str ""))),
   ("last_updated", pyOr (dgetD provider_info "last_updated" .null) (dgetD provider_info "lastUpdated" (.str "2024-01-01")))]

/-- Python `int(v * 100)` for a score value `v`: truncation toward zero.  A
non-numeric value raises `TypeError` in Python; none of the verified
properties exercises that case. -/
def intTimes100 : JVal → Int
  | .num q => Int.tdiv (q.num * 100) (Int.ofNat q.den)
  | _ => 0

/-- The percent strings of line 126: `int(v * 100)` followed by a percent
sign. -/
def percentStr (v : JVal) : JVal := .str (toString (intTimes100 v) ++ "%")

/-- The all-zero six-dimension default breakdown (lines 115-122). -/
def defaultScoreBreakdown : Dict :=
  [("identity", .num 0), ("address", .num 0), ("completeness", .num 0),
   ("freshness", .num 0), ("enrichment", .num 0), ("risk", .num 0)]

/-- The `dimension_percentages` comprehension plus the `pop("risk", "0%")` /
`"risk_penalty"` rewrite (lines 124-128). -/
def defaultDimensionPercentages (score_breakdown : Dict) : Dict :=
  let dp := score_breakdown.map (fun kv => (kv.1, percentStr kv.2))
  dp.filter (fun kv => kv.1 != "risk") ++ [("risk_penalty", (List.lookup "risk" dp).getD (.str "0%"))]

/-- The tier-emoji table of lines 131-135 (the glyphs appear in the source
file in their mojibake form, reproduced here verbatim). -/
def tierEmoji : JVal → JVal
  | .str "PLATINUM" => .str "üü¢"
  | .str "GOLD" => .str "üü°"
  | .str "QUESTIONABLE" => .str "üî¥"
  | _ => .str "üìä"

/-- Python `{**base, k1: v1, …}`: keys of `base` keep their position (with the
overriding value when a key recurs in the literal part), new keys are appended
in literal order. -/
def dictUpdate (base upds : Dict) : Dict :=
  base.map (fun kv => (kv.1, (List.lookup kv.1 upds).getD kv.2)) ++
    upds.filter (fun kv => (List.lookup kv.1 base).isNone)

/-- Python `d.get("status") == "Active"` (line 167): `None` or any non-string
compares unequal to the string. -/
def isActive : Option JVal → Bool
  | some (.str s) => s == "Active"
  | _ => false

/-- The explicit entries of the `quality_metrics` output literal of
`format_result_for_frontend` (lines 151-162): the entries spread after
`**quality_metrics`, recomputing the `score_breakdown`,
`dimension_percentages` and `tier` locals of lines 110-135. -/
def qmUpdates (final_result : Dict) : Dict :=
  let quality_metrics := dgetObj final_result "quality_metrics"
  let sb0 := asObj (dgetD quality_metrics "score_breakdown" (.obj []))
  let dp0 := asObj (dgetD quality_metrics "dimension_percentages" (.obj []))
  let score_breakdown := if sb0.isEmpty then defaultScoreBreakdown else sb0
  let dimension_percentages :=
    if dp0.isEmpty then defaultDimensionPercentages score_breakdown else dp0
  let tier := dgetD quality_metrics "confidence_tier" (.str "UNKNOWN")
  [("score_breakdown", .obj score_breakdown),
   ("dimension_percentages", .obj dimension_percentages),
   ("confidence_tier", tier),
   ("tier_emoji", tierEmoji tier),
   ("tier_description", dgetD quality_metrics "tier_description" (.str "")),
   ("flag_severity", dgetD quality_metrics "flag_severity" (.obj [])),
   ("risk_score", dgetD quality_metrics "risk_score" (.num 0)),
   ("fraud_indicator_count", dgetD quality_metrics "fraud_indicator_count" (.num 0)),
   ("conflict_count", dgetD quality_metrics "conflict_count" (.num 0))]

/-- Function `format_result_for_frontend` of `backend/main.py` (lines 108-171). -/
def format_result_for_frontend (final_result : Dict) (provider_info : Dict) : Dict :=
  let quality_metrics := dgetObj final_result "quality_metrics"
  [("original_data", .obj provider_info),
   ("final_profile",
     pyOr (dgetD final_result "final_profile" .null)
       (pyOr (dgetD final_result "golden_record" .null)
         (.obj [("provider_name", dgetD provider_info "full_name" (.str "Unknown Provider")),
                ("npi", dgetD provider_info "NPI" (.str "N/A")),
                ("specialty", dgetD provider_info "specialty" (.str "N/A"))]))),
   ("confidence_score", dgetD final_result "confidence_score" (.num 0)),
   ("requires_human_review", dgetD final_result "requires_human_review" (.bool false)),
   ("review_reason", dgetD final_result "review_reason" (.str "")),
   ("path", dgetD quality_metrics "path" (.str "UNKNOWN")),
   ("qa_flags", dgetD final_result "qa_flags" (.list [])),
   ("fraud_indicators", dgetD final_result "fraud_indicators" (.list [])),
   ("qa_corrections", dgetD final_result "qa_corrections" (.obj [])),
   ("quality_metrics", .obj (dictUpdate quality_metrics (qmUpdates final_result))),
   ("execution_metadata", dgetD final_result "execution_metadata" (.obj [])),
   ("verification_status", .obj
      [("nppes_verified", .bool (truthy (dgetD (dgetObj final_result "npi_result") "result_count" (.num 0)))),
       ("oig_clear", .bool (!truthy (dgetD (dgetObj final_result "oig_leie_result") "is_excluded" (.bool false)))),
       ("license_active", .bool (isActive (dget (dgetObj final_result "state_board_result") "status"))),
       ("address_validated", dgetD (dgetObj final_result "address_result") "is_medical_facility" (.bool false)),
       ("digital_footprint_score", dgetD final_result "digital_footprint_score" (.num 0))])]

/-- Rendering used where `main.py` interpolates a value into an f-string log
message.  Python's exact `repr`/format of numbers and containers (and the
`:.1%` percent format) is not reproduced digit-for-digit; none of the
verified properties concerns log text. -/
def jdisp : JVal → String
  | .null => "None"
  | .bool b => if b then "True" else "False"
  | .num q => toString q
  | .str s => s
  | .list _ => "[...]"
  | .obj _ => "\x7b...\x7d"

/-- One `('log', …)` or `('result', …)` tuple put on the result queue of
`/validate-file` (lines 215-264) and forwarded to the event stream. -/
inductive StreamEntry where
  | log : String → StreamEntry
  | result : Dict → StreamEntry

/-- The ERROR payload built in `worker`'s `except` clause (lines 257-264). -/
def worker_error_result (provider_info : Dict) (e : String) : Dict :=
  [("original_data", .obj provider_info),
   ("error", .str e),
   ("confidence_score", .num 0),
   ("path", .str "ERROR"),
   ("requires_human_review", .bool true),
   ("review_reason", .str ("Processing error: " ++ e))]

/-- Function `worker` of `/validate-file` (lines 212-264).  The outcome of
`validation_agent_app.invoke` — the one effectful, fallible call in the `try`
block — is abstracted as an `Except`; everything before it (name extraction,
the first log put) has already run when an exception surfaces, and the
`except` clause puts one error log and one ERROR result. -/
def worker (total_records : Nat) (provider_info : Dict) (index : Nat)
    (invoke : Except String Dict) : List StreamEntry :=
  let idx1 := index + 1
  let provider_name := jdisp (pyOr (dgetD provider_info "full_name" .null) (dgetD provider_info "fullName" (.str s!"Record {idx1}")))
  let startMsg := s!"üîÑ [{idx1}/{total_records}] Processing: {provider_name}"
  match invoke with
  | .ok final_result =>
    let result_payload := format_result_for_frontend final_result provider_info
    let path := jdisp (dgetD result_payload "path" (.str "UNKNOWN"))
    let path_emoji := if path = "GREEN" then "üü¢" else if path = "YELLOW" then "üü°" else "üî¥"
    let confidence := jdisp (dgetD result_payload "confidence_score" (.num 0))
    let doneMsg := s!"{path_emoji} [{idx1}/{total_records}] {provider_name} - {path} PATH ({confidence})"
    [.log startMsg, .log doneMsg, .result result_payload]
  | .error e =>
    [.log startMsg,
     .log s!"‚ùå Error processing record {idx1}: {e}",
     .result (worker_error_result provider_info e)]

/-- The single `('result', …)` payload `worker` puts for one record: the
formatted agent result on success, the ERROR payload on an exception.  (It
does not depend on the record's index or the batch size.) -/
def workerResult (provider_info : Dict) (invoke : Except String Dict) : Dict :=
  match invoke with
  | .ok final_result => format_result_for_frontend final_result provider_info
  | .error e => worker_error_result provider_info e

/-- The ERROR payload of `/validate-single`'s `except` clause (lines 366-372). -/
def single_error_result (provider_data : Dict) (e : String) : Dict :=
  [("original_data", .obj provider_data),
   ("confidence_score", .num 0),
   ("path", .str "ERROR"),
   ("requires_human_review", .bool true),
   ("review_reason", .str ("Processing error: " ++ e))]

/-- Endpoint `validate_single_provider` (lines 324-373), with the outcome of
`validation_agent_app.invoke` abstracted as an `Except`. -/
def validate_single_provider (provider_data : Dict) (invoke : Except String Dict) : Dict :=
  match invoke with
  | .ok final_result =>
    [("status", .str "success"),
     ("data", .obj (format_result_for_frontend final_result provider_data))]
  | .error e =>
    [("status", .str "error"),
     ("error", .str e),
     ("data", .obj (single_error_result provider_data e))]

/-- Whether a queue entry is a `('result', …)` tuple. -/
def isResult : StreamEntry → Bool
  | .result _ => true
  | .log _ => false

/-- The per-record queue-entry lists of one `/validate-file` batch, one list
per created task (lines 272-275), indexed in input order. -/
def batchEmissionsAux (total : Nat) : Nat → List (Dict × Except String Dict) → List (List StreamEntry)
  | _, [] => []
  | i, r :: rest => worker total r.1 i r.2 :: batchEmissionsAux total (i + 1) rest

/-- All queue-entry lists of a batch, one per record. -/
def batchEmissions (batch : List (Dict × Except String Dict)) : List (List StreamEntry) :=
  batchEmissionsAux batch.length 0 batch

/-- Constant `MAX_CONCURRENT_WORKERS` of line 80. -/
def MAX_CONCURRENT_WORKERS : Nat := 5

/-- Lifecycle of one record's task in a `/validate-file` batch: created but
not yet past the semaphore, holding a permit and running `worker`, or
finished (permit released). -/
inductive WStatus where
  | waiting : WStatus
  | running : WStatus
  | finished : WStatus
deriving DecidableEq

/-- Number of tasks currently inside the `async with semaphore` body. -/
def runningCount (ts : List WStatus) : Nat := ts.countP (fun s => s == WStatus.running)

/-- Abstract semantics of `bounded_worker` (lines 266-270): a task may enter
the `async with semaphore` body only while fewer than
`MAX_CONCURRENT_WORKERS` permits of the `asyncio.Semaphore(MAX_CONCURRENT_WORKERS)`
are held (each running task holds exactly one permit), and a running task may
finish at any time, releasing its permit. -/
inductive PoolStep : List WStatus → List WStatus → Prop where
  | acquire (ts : List WStatus) (i : Nat) (hi : ts[i]? = some WStatus.waiting)
      (hsem : runningCount ts < MAX_CONCURRENT_WORKERS) :
      PoolStep ts (ts.set i WStatus.running)
  | release (ts : List WStatus) (i : Nat) (hi : ts[i]? = some WStatus.running) :
      PoolStep ts (ts.set i WStatus.finished)

/-- States of the worker pool reachable during one `/validate-file` request
over `n` records: all tasks start waiting at the semaphore. -/
def PoolReachable (n : Nat) (ts : List WStatus) : Prop :=
  Relation.ReflTransGen PoolStep (List.replicate n WStatus.waiting) ts

/-- The radar-chart dimension rows of `/api/analytics/confidence-breakdown`
(`get_confidence_breakdown`, lines 713-750): display name, score (percent,
truncated), maximum, and the declared percentage weight of the dimension. -/
def confidence_breakdown_dimensions (score_breakdown : Dict) : List Dict :=
  [[("dimension", .str "Primary\nSource"),
    ("score", .num ((intTimes100 (dgetD score_breakdown "identity" (.num 0)) : Int) : ℚ)),
    ("max", .num 100), ("weight", .num 35)],
   [("dimension", .str "Address\nReliability"),
    ("score", .num ((intTimes100 (dgetD score_breakdown "address" (.num 0)) : Int) : ℚ)),
    ("max", .num 100), ("weight", .num 20)],
   [("dimension", .str "Digital\nFootprint"),
    ("score", .num ((intTimes100 (dgetD score_breakdown "enrichment" (.num 0)) : Int) : ℚ)),
    ("max", .num 100), ("weight", .num 15)],
   [("dimension", .str "Data\nCompleteness"),
    ("score", .num ((intTimes100 (dgetD score_breakdown "completeness" (.num 0)) : Int) : ℚ)),
    ("max", .num 100), ("weight", .num 15)],
   [("dimension", .str "Data\nFreshness"),
    ("score", .num ((intTimes100 (dgetD score_breakdown "freshness" (.num 0)) : Int) : ℚ)),
    ("max", .num 100), ("weight", .num 10)],
   [("dimension", .str "Fraud\nRisk"),
    ("score", .num ((intTimes100 (dgetD score_breakdown "risk" (.num 0)) : Int) : ℚ)),
    ("max", .num 100), ("weight", .num 5)]]

/-- The `"weight"` entry of one dimension row. -/
def weightOf (d : Dict) : ℚ :=
  match dgetD d "weight" (.num 0) with
  | .num q => q
  | _ => 0

/-- Sum of the declared percentage weights of a dimension table. -/
def breakdown_weight_sum (dims : List Dict) : ℚ := (dims.map weightOf).sum

/-- Modelled from the spec: the six dimension weights of the Scoring Engine
(§3 ScoreBreakdown, §4.5); the scoring code itself lives in `agent.py`,
which is not part of the backend source file. -/
def WEIGHT_IDENTITY : ℚ := 35 / 100

/-- Modelled from the spec: address-dimension weight (§3). -/
def WEIGHT_ADDRESS : ℚ := 20 / 100

/-- Modelled from the spec: enrichment-dimension weight (§3). -/
def WEIGHT_ENRICHMENT : ℚ := 15 / 100

/-- Modelled from the spec: completeness-dimension weight (§3). -/
def WEIGHT_COMPLETENESS : ℚ := 15 / 100

/-- Modelled from the spec: freshness-dimension weight (§3). -/
def WEIGHT_FRESHNESS : ℚ := 10 / 100

/-- Modelled from the spec: risk-dimension weight (§3); this dimension is
subtracted from the weighted sum of the other five (§4.5). -/
def WEIGHT_RISK : ℚ := 5 / 100

/-- Modelled from the spec: PLATINUM tier threshold (§4.5). -/
def TIER_PLATINUM_THRESHOLD : ℚ := 85 / 100

/-- Modelled from the spec: GOLD tier threshold (§4.5). -/
def TIER_GOLD_THRESHOLD : ℚ := 60 / 100

/-- Modelled from the spec: the configured conflict-count threshold above
which a record requires review (§4.6; the exact value is a policy constant
not fixed by the spec). -/
def REVIEW_CONFLICT_THRESHOLD : Nat := 3

/-- The six dimension values of one record's ScoreBreakdown. -/
structure DimensionScores where
  identity : ℚ
  address : ℚ
  completeness : ℚ
  freshness : ℚ
  enrichment : ℚ
  risk : ℚ

/-- Clamp into the unit interval, `clamp(·, 0, 1)`. -/
def clamp01 (q : ℚ) : ℚ := max 0 (min 1 q)

/-- Modelled from the spec: `confidence_score` of the Scoring Engine (§4.5),
the clamped weighted sum with the risk dimension subtracted. -/
def spec_confidence_score (b : DimensionScores) : ℚ :=
  clamp01 (WEIGHT_IDENTITY * b.identity + WEIGHT_ADDRESS * b.address +
    WEIGHT_COMPLETENESS * b.completeness + WEIGHT_FRESHNESS * b.freshness +
    WEIGHT_ENRICHMENT * b.enrichment - WEIGHT_RISK * b.risk)

/-- Modelled from the spec: the tier mapping of §4.5. -/
def spec_confidence_tier (score : ℚ) (highSeverityFraud : Bool) : String :=
  if TIER_PLATINUM_THRESHOLD ≤ score ∧ highSeverityFraud = false then "PLATINUM"
  else if TIER_GOLD_THRESHOLD ≤ score then "GOLD"
  else "QUESTIONABLE"

/-- Modelled from the spec: the path mapping of §4.5, with the exclusion-list
hit as an absolute override forcing RED independent of the numeric score. -/
def spec_route_path (tier : String) (anyFraud : Bool) (exclusionHit : Bool) : String :=
  if exclusionHit then "RED"
  else if tier = "PLATINUM" ∧ anyFraud = false then "GREEN"
  else if tier = "GOLD" ∨ tier = "PLATINUM" then "YELLOW"
  else "RED"

/-- Modelled from the spec: `requires_human_review` of the Review Router
(§4.6): RED path, YELLOW path with score below 0.5, or too many conflicts. -/
def spec_requires_review (path : String) (score : ℚ) (conflictCount : Nat) : Bool :=
  (path == "RED") || ((path == "YELLOW") && decide (score < 1 / 2)) ||
    decide (conflictCount > REVIEW_CONFLICT_THRESHOLD)

/-- Modelled from the spec: the final-state dictionary the validation agent
(`agent.py`, not part of the backend file) hands to
`format_result_for_frontend`, restricted to the fields the verified
properties read: score, review flag and reason, the exclusion-list evidence,
and the quality-metrics block carrying path, tier and breakdown. -/
def spec_agent_result (b : DimensionScores) (anyFraud highSeverityFraud exclusionHit : Bool)
    (conflictCount : Nat) : Dict :=
  let score := spec_confidence_score b
  let tier := spec_confidence_tier score highSeverityFraud
  let path := spec_route_path tier anyFraud exclusionHit
  let rhr := spec_requires_review path score conflictCount
  [("confidence_score", .num score),
   ("requires_human_review", .bool rhr),
   ("review_reason", .str (if rhr then "Routed to path " ++ path else "")),
   ("oig_leie_result", .obj [("is_excluded", .bool exclusionHit)]),
   ("quality_metrics", .obj
     [("path", .str path),
      ("confidence_tier", .str tier),
      ("score_breakdown", .obj
        [("identity", .num b.identity), ("address", .num b.address),
         ("completeness", .num b.completeness), ("freshness", .num b.freshness),
         ("enrichment", .num b.enrichment), ("risk", .num b.risk)])])]

/-- The top-level keys `format_result_for_frontend` returns (lines 137-171). -/
def frontendResultKeys : List String :=
  ["original_data", "final_profile", "confidence_score", "requires_human_review",
   "review_reason", "path", "qa_flags", "fraud_indicators", "qa_corrections",
   "quality_metrics", "execution_metadata", "verification_status"]

/-- The keys of `worker`'s ERROR payload (lines 257-264). -/
def workerErrorKeys : List String :=
  ["original_data", "error", "confidence_score", "path", "requires_human_review", "review_reason"]

/-- The canonical field names `normalize_provider_data` emits. -/
def canonicalProviderKeys : List String :=
  ["full_name", "NPI", "address", "city", "state", "zip_code", "website",
   "specialty", "phone", "license_number", "last_updated"]

/-- The result fields every caller-visible record outcome carries. -/
def requiredResultKeys : List String :=
  ["original_data", "confidence_score", "path", "requires_human_review", "review_reason"]

/-- Whether a dict carries a key. -/
def hasKey (d : Dict) (k : String) : Bool := (dget d k).isSome

/-- The `verification_status` block of a formatted result. -/
def verification_status_of (final_result provider_info : Dict) : Dict :=
  dgetObj (format_result_for_frontend final_result provider_info) "verification_status"

lemma worker_filter_isResult (total : Nat) (info : Dict) (i : Nat) (o : Except String Dict) :
    (worker total info i o).filter isResult = [StreamEntry.result (workerResult info o)] := by
  cases o <;> rfl

lemma result_mem_worker (total : Nat) (info : Dict) (i : Nat) (o : Except String Dict) :
    StreamEntry.result (workerResult info o) ∈ worker total info i o := by
  cases o <;> simp [worker, workerResult]

/-- C1: for every input record, the caller always receives a structured
result and never a raw exception: whatever the outcome of the agent
invocation — success or any exception — `worker` puts exactly one
`('result', …)` entry whose payload carries `original_data`,
`confidence_score`, `path`, `requires_human_review` and `review_reason`, and
`/validate-single` always returns a dictionary whose `data` entry carries
those same fields. -/
theorem c1_always_structured_result (provider_info : Dict) (invoke : Except String Dict)
    (total index : Nat) :
    ((worker total provider_info index invoke).filter isResult =
       [StreamEntry.result (workerResult provider_info invoke)]) ∧
    (requiredResultKeys.all (hasKey (workerResult provider_info invoke)) = true) ∧
    (∃ d : Dict, dget (validate_single_provider provider_info invoke) "data" = some (.obj d) ∧
       requiredResultKeys.all (hasKey d) = true) := by
  refine ⟨worker_filter_isResult _ _ _ _, ?_, ?_⟩
  · cases invoke <;> rfl
  · cases invoke with
    | ok fr => exact ⟨_, rfl, rfl⟩
    | error e => exact ⟨_, rfl, rfl⟩

/-- C2: a record whose processing raises an exception yields, both in
`/validate-file`'s worker and in `/validate-single`, a result with
`path = "ERROR"`, `requires_human_review = true`, and the non-empty
review reason `"Processing error: " ++ e` containing the error message. -/
theorem c2_error_result_fields (provider_info : Dict) (e : String) :
    (dget (worker_error_result provider_info e) "path" = some (.str "ERROR")) ∧
    (dget (worker_error_result provider_info e) "requires_human_review" = some (.bool true)) ∧
    (dget (worker_error_result provider_info e) "review_reason" =
       some (.str ("Processing error: " ++ e))) ∧
    (dget (single_error_result provider_info e) "path" = some (.str "ERROR")) ∧
    (dget (single_error_result provider_info e) "requires_human_review" = some (.bool true)) ∧
    (dget (single_error_result provider_info e) "review_reason" =
       some (.str ("Processing error: " ++ e))) ∧
    ("Processing error: " ++ e ≠ "") := by
  refine ⟨rfl, rfl, rfl, rfl, rfl, rfl, ?_⟩
  intro h
  have hl := congrArg String.length h
  rw [String.length_append] at hl
  have h18 : ("Processing error: ").length = 18 := rfl
  have h0 : ("" : String).length = 0 := rfl
  omega

/-- C5 counterexample: on the empty input dictionary — where every canonical
field is absent — `normalize_provider_data` sets `last_updated` to
`"2024-01-01"`, not to the empty string the claim requires. -/
theorem c5_last_updated_default_cex :
    dget (normalize_provider_data []) "last_updated" = some (.str "2024-01-01") ∧
    JVal.str "2024-01-01" ≠ JVal.str "" := by
  refine ⟨rfl, ?_⟩
  intro h
  injection h with h'
  exact absurd h' (by decide)

/-- C5 (amended): `normalize_provider_data` emits exactly the canonical
fields, taking the canonical key's value with the listed variant as `or`
fallback; every canonical field absent from the input (under both names) is
set to the empty string — except `last_updated`, which defaults to
`"2024-01-01"` — and no field is ever null when both names are absent. -/
theorem c5_normalize_defaults_amended (p : Dict) :
    ((normalize_provider_data p).map Prod.fst = canonicalProviderKeys) ∧
    (dget p "full_name" = none → dget p "fullName" = none →
      dget (normalize_provider_data p) "full_name" = some (.str "")) ∧
    (dget p "NPI" = none → dget p "npi" = none →
      dget (normalize_provider_data p) "NPI" = some (.str "")) ∧
    (dget p "address" = none → dget (normalize_provider_data p) "address" = some (.str "")) ∧
    (dget p "city" = none → dget (normalize_provider_data p) "city" = some (.str "")) ∧
    (dget p "state" = none → dget (normalize_provider_data p) "state" = some (.str "")) ∧
    (dget p "zip_code" = none → dget p "zipCode" = none →
      dget (normalize_provider_data p) "zip_code" = some (.str "")) ∧
    (dget p "website" = none → dget (normalize_provider_data p) "website" = some (.str "")) ∧
    (dget p "specialty" = none → dget (normalize_provider_data p) "specialty" = some (.str "")) ∧
    (dget p "phone" = none → dget (normalize_provider_data p) "phone" = some (.str "")) ∧
    (dget p "license_number" = none → dget p "license" = none →
      dget (normalize_provider_data p) "license_number" = some (.str "")) ∧
    (dget p "last_updated" = none → dget p "lastUpdated" = none →
      dget (normalize_provider_data p) "last_updated" = some (.str "2024-01-01")) := by
  refine ⟨rfl, ?_, ?_, ?_, ?_, ?_, ?_, ?_, ?_, ?_, ?_, ?_⟩
  · intro h1 h2
    have hv : dget (normalize_provider_data p) "full_name" =
        some (pyOr (dgetD p "full_name" .null) (dgetD p "fullName" (.str ""))) := rfl
    rw [hv]; simp [dgetD, h1, h2, pyOr, truthy]
  · intro h1 h2
    have hv : dget (normalize_provider_data p) "NPI" =
        some (pyOr (dgetD p "NPI" .null) (dgetD p "npi" (.str ""))) := rfl
    rw [hv]; simp [dgetD, h1, h2, pyOr, truthy]
  · intro h1
    have hv : dget (normalize_provider_data p) "address" =
        some (dgetD p "address" (.str "")) := rfl
    rw [hv]; simp [dgetD, h1]
  · intro h1
    have hv : dget (normalize_provider_data p) "city" =
        some (dgetD p "city" (.str "")) := rfl
    rw [hv]; simp [dgetD, h1]
  · intro h1
    have hv : dget (normalize_provider_data p) "state" =
        some (dgetD p "state" (.str "")) := rfl
    rw [hv]; simp [dgetD, h1]
  · intro h1 h2
    have hv : dget (normalize_provider_data p) "zip_code" =
        some (pyOr (dgetD p "zip_code" .null) (dgetD p "zipCode" (.str ""))) := rfl
    rw [hv]; simp [dgetD, h1, h2, pyOr, truthy]
  · intro h1
    have hv : dget (normalize_provider_data p) "website" =
        some (dgetD p "website" (.str "")) := rfl
    rw [hv]; simp [dgetD, h1]
  · intro h1
    have hv : dget (normalize_provider_data p) "specialty" =
        some (dgetD p "specialty" (.str "")) := rfl
    rw [hv]; simp [dgetD, h1]
  · intro h1
    have hv : dget (normalize_provider_data p) "phone" =
        some (dgetD p "phone" (.str "")) := rfl
    rw [hv]; simp [dgetD, h1]
  · intro h1 h2
    have hv : dget (normalize_provider_data p) "license_number" =
        some (pyOr (dgetD p "license_number" .null) (dgetD p "license" (.str ""))) := rfl
    rw [hv]; simp [dgetD, h1, h2, pyOr, truthy]
  · intro h1 h2
    have hv : dget (normalize_provider_data p) "last_updated" =
        some (pyOr (dgetD p "last_updated" .null) (dgetD p "lastUpdated" (.str "2024-01-01"))) := rfl
    rw [hv]; simp [dgetD, h1, h2, pyOr, truthy]

/-- C5 witness: the amended defaults evaluated on the empty input dict. -/
theorem c5_normalize_defaults_witness :
    ((normalize_provider_data []).map Prod.fst = canonicalProviderKeys) ∧
    dget (normalize_provider_data []) "full_name" = some (.str "") ∧
    dget (normalize_provider_data []) "last_updated" = some (.str "2024-01-01") :=
  ⟨(c5_normalize_defaults_amended []).1,
   (c5_normalize_defaults_amended []).2.1 rfl rfl,
   (c5_normalize_defaults_amended []).2.2.2.2.2.2.2.2.2.2.2 rfl rfl⟩

/-- C7: the six declared percentage weights of the confidence-breakdown
dimension table (35, 20, 15, 15, 10, 5) sum to exactly 100, i.e. the
corresponding fractional ScoreBreakdown weights sum to 1.0. -/
theorem c7_weights_sum (score_breakdown : Dict) :
    breakdown_weight_sum (confidence_breakdown_dimensions score_breakdown) = 100 ∧
    breakdown_weight_sum (confidence_breakdown_dimensions score_breakdown) / 100 = 1 ∧
    WEIGHT_IDENTITY + WEIGHT_ADDRESS + WEIGHT_ENRICHMENT + WEIGHT_COMPLETENESS +
      WEIGHT_FRESHNESS + WEIGHT_RISK = 1 := by
  have h : breakdown_weight_sum (confidence_breakdown_dimensions score_breakdown) =
      35 + (20 + (15 + (15 + (10 + (5 + 0))))) := rfl
  rw [h]
  norm_num [WEIGHT_IDENTITY, WEIGHT_ADDRESS, WEIGHT_ENRICHMENT, WEIGHT_COMPLETENESS,
      WEIGHT_FRESHNESS, WEIGHT_RISK]

/-- C10: `normalize_provider_data` treats an empty string under a canonical
key like an absent key: when the canonical key holds `""` and its variant key
holds a non-empty string, the `or` fallback chain takes the variant's value,
for each of the five canonical/variant pairs. -/
theorem c10_empty_string_fallback (p : Dict) (s : String) (hs : s ≠ "") :
    (dget p "full_name" = some (.str "") → dget p "fullName" = some (.str s) →
      dget (normalize_provider_data p) "full_name" = some (.str s)) ∧
    (dget p "NPI" = some (.str "") → dget p "npi" = some (.str s) →
      dget (normalize_provider_data p) "NPI" = some (.str s)) ∧
    (dget p "zip_code" = some (.str "") → dget p "zipCode" = some (.str s) →
      dget (normalize_provider_data p) "zip_code" = some (.str s)) ∧
    (dget p "license_number" = some (.str "") → dget p "license" = some (.str s) →
      dget (normalize_provider_data p) "license_number" = some (.str s)) ∧
    (dget p "last_updated" = some (.str "") → dget p "lastUpdated" = some (.str s) →
      dget (normalize_provider_data p) "last_updated" = some (.str s)) := by
  refine ⟨?_, ?_, ?_, ?_, ?_⟩
  · intro h1 h2
    have hv : dget (normalize_provider_data p) "full_name" =
        some (pyOr (dgetD p "full_name" .null) (dgetD p "fullName" (.str ""))) := rfl
    rw [hv]; simp [dgetD, h1, h2, pyOr, truthy]
  · intro h1 h2
    have hv : dget (normalize_provider_data p) "NPI" =
        some (pyOr (dgetD p "NPI" .null) (dgetD p "npi" (.str ""))) := rfl
    rw [hv]; simp [dgetD, h1, h2, pyOr, truthy]
  · intro h1 h2
    have hv : dget (normalize_provider_data p) "zip_code" =
        some (pyOr (dgetD p "zip_code" .null) (dgetD p "zipCode" (.str ""))) := rfl
    rw [hv]; simp [dgetD, h1, h2, pyOr, truthy]
  · intro h1 h2
    have hv : dget (normalize_provider_data p) "license_number" =
        some (pyOr (dgetD p "license_number" .null) (dgetD p "license" (.str ""))) := rfl
    rw [hv]; simp [dgetD, h1, h2, pyOr, truthy]
  · intro h1 h2
    have hv : dget (normalize_provider_data p) "last_updated" =
        some (pyOr (dgetD p "last_updated" .null) (dgetD p "lastUpdated" (.str "2024-01-01"))) := rfl
    rw [hv]; simp [dgetD, h1, h2, pyOr, truthy]

/-- The input of the C10 witness: every canonical key of a variant pair holds
the empty string while its variant key holds `"Jane"`. -/
def c10WitnessInput : Dict :=
  [("full_name", .str ""), ("fullName", .str "Jane"),
   ("NPI", .str ""), ("npi", .str "Jane"),
   ("zip_code", .str ""), ("zipCode", .str "Jane"),
   ("license_number", .str ""), ("license", .str "Jane"),
   ("last_updated", .str ""), ("lastUpdated", .str "Jane")]

/-- C10 witness: the fallback evaluated on a concrete input where every
canonical key holds `""` and every variant key holds `"Jane"`. -/
theorem c10_empty_string_fallback_witness :
    dget (normalize_provider_data c10WitnessInput) "full_name" = some (.str "Jane") ∧
    dget (normalize_provider_data c10WitnessInput) "NPI" = some (.str "Jane") ∧
    dget (normalize_provider_data c10WitnessInput) "zip_code" = some (.str "Jane") ∧
    dget (normalize_provider_data c10WitnessInput) "license_number" = some (.str "Jane") ∧
    dget (normalize_provider_data c10WitnessInput) "last_updated" = some (.str "Jane") :=
  ⟨(c10_empty_string_fallback c10WitnessInput "Jane" (by decide)).1 rfl rfl,
   (c10_empty_string_fallback c10WitnessInput "Jane" (by decide)).2.1 rfl rfl,
   (c10_empty_string_fallback c10WitnessInput "Jane" (by decide)).2.2.1 rfl rfl,
   (c10_empty_string_fallback c10WitnessInput "Jane" (by decide)).2.2.2.1 rfl rfl,
   (c10_empty_string_fallback c10WitnessInput "Jane" (by decide)).2.2.2.2 rfl rfl⟩

lemma filterLength_batchEmissionsAux (batch : List (Dict × Except String Dict)) :
    ∀ total i,
      (((batchEmissionsAux total i batch).flatten).filter isResult).length = batch.length := by
  induction batch with
  | nil => intro total i; rfl
  | cons r rest ih =>
    intro total i
    rw [show batchEmissionsAux total i (r :: rest) =
          worker total r.1 i r.2 :: batchEmissionsAux total (i + 1) rest from rfl]
    rw [List.flatten_cons, List.filter_append, List.length_append,
      worker_filter_isResult, ih total (i + 1)]
    simp [Nat.add_comm]

lemma result_mem_batchEmissionsAux (batch : List (Dict × Except String Dict)) :
    ∀ (total i j : Nat) (h : j < batch.length),
      StreamEntry.result (workerResult (batch.get ⟨j, h⟩).1 (batch.get ⟨j, h⟩).2) ∈
        (batchEmissionsAux total i batch).flatten := by
  induction batch with
  | nil => intro total i j h; exact absurd h (by simp)
  | cons r rest ih =>
    intro total i j h
    cases j with
    | zero =>
      refine List.mem_flatten.mpr ⟨worker total r.1 i r.2, ?_, ?_⟩
      · simp [batchEmissionsAux]
      · exact result_mem_worker total r.1 i r.2
    | succ j =>
      have hj : j < rest.length := Nat.lt_of_succ_lt_succ h
      rcases List.mem_flatten.mp (ih total (i + 1) j hj) with ⟨l, hl, hx⟩
      exact List.mem_flatten.mpr ⟨l, by simp [batchEmissionsAux, hl], hx⟩

/-- C3: a failure while processing one record of a `/validate-file` batch
never aborts the others: whatever each record's worker outcome, every
interleaving of the workers' queue entries contains exactly one
`('result', …)` entry per input record, and every record — in particular
every one other than a raising record — contributes its own result payload. -/
theorem c3_batch_isolation (batch : List (Dict × Except String Dict)) (qs : List StreamEntry)
    (hq : qs.Perm (batchEmissions batch).flatten) :
    ((qs.filter isResult).length = batch.length) ∧
    (∀ (j : Nat) (h : j < batch.length),
      StreamEntry.result (workerResult (batch.get ⟨j, h⟩).1 (batch.get ⟨j, h⟩).2) ∈ qs) := by
  constructor
  · rw [(List.Perm.filter isResult hq).length_eq]
    exact filterLength_batchEmissionsAux batch batch.length 0
  · intro j h
    exact hq.mem_iff.mpr (result_mem_batchEmissionsAux batch batch.length 0 j h)

/-- The batch of the C3 witness: a succeeding record followed by one whose
processing raises. -/
def c3WitnessBatch : List (Dict × Except String Dict) :=
  [([("full_name", .str "Jane Doe")], .ok []),
   ([("full_name", .str "John Roe")], .error "boom")]

/-- C3 witness: on a concrete two-record batch whose second record raises,
the queue still holds one result per record and the first record's own
result payload. -/
theorem c3_batch_isolation_witness :
    (((batchEmissions c3WitnessBatch).flatten).Perm ((batchEmissions c3WitnessBatch).flatten)) ∧
    (((batchEmissions c3WitnessBatch).flatten).filter isResult).length = c3WitnessBatch.length ∧
    StreamEntry.result (workerResult [("full_name", .str "Jane Doe")] (.ok [])) ∈
      (batchEmissions c3WitnessBatch).flatten :=
  ⟨List.Perm.refl _,
   (c3_batch_isolation c3WitnessBatch _ (List.Perm.refl _)).1,
   (c3_batch_isolation c3WitnessBatch _ (List.Perm.refl _)).2 0 (by decide)⟩

lemma runningCount_replicate_waiting (n : Nat) :
    runningCount (List.replicate n WStatus.waiting) = 0 := by
  simp [runningCount, List.countP_eq_zero, List.mem_replicate]

lemma runningCount_set_le (ts : List WStatus) (i : Nat) (v : WStatus) :
    runningCount (ts.set i v) ≤ runningCount ts + 1 := by
  induction ts generalizing i with
  | nil => simp [runningCount]
  | cons a l ih =>
    cases i with
    | zero =>
      simp only [List.set_cons_zero, runningCount, List.countP_cons]
      cases hv : (v == WStatus.running) <;> cases ha : (a == WStatus.running) <;> simp <;> omega
    | succ i =>
      simp only [List.set_cons_succ, runningCount, List.countP_cons]
      have hil := ih i
      simp only [runningCount] at hil
      cases ha : (a == WStatus.running) <;> simp <;> omega

lemma runningCount_set_finished_le (ts : List WStatus) (i : Nat) :
    runningCount (ts.set i WStatus.finished) ≤ runningCount ts := by
  induction ts generalizing i with
  | nil => simp [runningCount]
  | cons a l ih =>
    cases i with
    | zero =>
      simp only [List.set_cons_zero, runningCount, List.countP_cons]
      cases ha : (a == WStatus.running) <;> simp <;> omega
    | succ i =>
      simp only [List.set_cons_succ, runningCount, List.countP_cons]
      have hil := ih i
      simp only [runningCount] at hil
      cases ha : (a == WStatus.running) <;> simp <;> omega

lemma poolStep_bound {a b : List WStatus} (h : PoolStep a b)
    (ha : runningCount a ≤ MAX_CONCURRENT_WORKERS) :
    runningCount b ≤ MAX_CONCURRENT_WORKERS := by
  cases h with
  | acquire i hi hsem =>
    have hle := runningCount_set_le a i WStatus.running
    omega
  | release i hi =>
    have hle := runningCount_set_finished_le a i
    omega

/-- C8: in every state of a `/validate-file` batch reachable under the
semaphore discipline of `bounded_worker` — a counting semaphore initialized
to `MAX_CONCURRENT_WORKERS = 5`, acquired around each `worker` invocation —
at most 5 record workers are running at once. -/
theorem c8_semaphore_bound (n : Nat) (ts : List WStatus) (h : PoolReachable n ts) :
    runningCount ts ≤ MAX_CONCURRENT_WORKERS := by
  induction h with
  | refl => rw [runningCount_replicate_waiting]; exact Nat.zero_le _
  | tail hsteps hstep ih => exact poolStep_bound hstep ih

/-- C8 witness: the bound evaluated on the initial state of a concrete
three-record batch. -/
theorem c8_semaphore_bound_witness :
    PoolReachable 3 (List.replicate 3 WStatus.waiting) ∧
    runningCount (List.replicate 3 WStatus.waiting) ≤ MAX_CONCURRENT_WORKERS :=
  ⟨Relation.ReflTransGen.refl, c8_semaphore_bound 3 _ Relation.ReflTransGen.refl⟩

lemma lookup_append_dict (l₁ l₂ : Dict) (k : String) :
    List.lookup k (l₁ ++ l₂) =
      match List.lookup k l₁ with
      | some v => some v
      | none => List.lookup k l₂ := by
  induction l₁ with
  | nil => rfl
  | cons a l ih =>
    obtain ⟨k₁, v₁⟩ := a
    cases hk : (k == k₁) with
    | true => simp [List.lookup_cons, hk]
    | false => simp [List.lookup_cons, hk, ih]

lemma lookup_map_update (base upds : Dict) (k : String) :
    List.lookup k (base.map (fun kv => (kv.1, (List.lookup kv.1 upds).getD kv.2))) =
      (List.lookup k base).map (fun v => (List.lookup k upds).getD v) := by
  induction base with
  | nil => rfl
  | cons a l ih =>
    obtain ⟨k₁, v₁⟩ := a
    cases hk : (k == k₁) with
    | true =>
      have hkk : k = k₁ := eq_of_beq hk
      subst hkk
      simp [List.lookup_cons, hk]
    | false => simp [List.lookup_cons, hk, ih]

lemma lookup_filter_notin_base (base upds : Dict) (k : String)
    (hbase : List.lookup k base = none) :
    List.lookup k (upds.filter (fun kv => (List.lookup kv.1 base).isNone)) =
      List.lookup k upds := by
  induction upds with
  | nil => rfl
  | cons a l ih =>
    obtain ⟨k₁, v₁⟩ := a
    cases hk : (k == k₁) with
    | true =>
      have hkk : k = k₁ := eq_of_beq hk
      subst hkk
      rw [List.filter_cons]
      simp [hbase, List.lookup_cons]
    | false =>
      rw [List.filter_cons]
      cases hp : ((List.lookup k₁ base).isNone) with
      | true => simp [hp, List.lookup_cons, hk, ih]
      | false => simp [hp, ih, List.lookup_cons, hk]

lemma lookup_dictUpdate (base upds : Dict) (k : String) (v : JVal)
    (hv : List.lookup k upds = some v) :
    List.lookup k (dictUpdate base upds) = some v := by
  unfold dictUpdate
  rw [lookup_append_dict, lookup_map_update]
  cases hb : List.lookup k base with
  | some w => simp [hv]
  | none => simp [lookup_filter_notin_base base upds k hb, hv]

/-- C4: an exclusion-list hit is an absolute override: whenever the
OIG-LEIE evidence reports `is_excluded = true`, the formatted result has
`path = "RED"` and `requires_human_review = true`, independent of all six
dimension scores, of the fraud flags and of the conflict count. -/
theorem c4_exclusion_override (b : DimensionScores) (anyFraud highSeverityFraud : Bool)
    (conflictCount : Nat) (provider_info : Dict) (exclusionHit : Bool)
    (hx : exclusionHit = true) :
    dget (format_result_for_frontend
        (spec_agent_result b anyFraud highSeverityFraud exclusionHit conflictCount)
        provider_info) "path" = some (.str "RED") ∧
    dget (format_result_for_frontend
        (spec_agent_result b anyFraud highSeverityFraud exclusionHit conflictCount)
        provider_info) "requires_human_review" = some (.bool true) := by
  subst hx
  exact ⟨rfl, rfl⟩

/-- C4 witness: the override evaluated with every positive dimension at 1.0
and no fraud indicators — the exclusion hit alone forces RED and review. -/
theorem c4_exclusion_override_witness :
    dget (format_result_for_frontend
        (spec_agent_result ⟨1, 1, 1, 1, 1, 1⟩ false false true 0) []) "path" =
      some (.str "RED") ∧
    dget (format_result_for_frontend
        (spec_agent_result ⟨1, 1, 1, 1, 1, 1⟩ false false true 0) [])
        "requires_human_review" = some (.bool true) :=
  ⟨(c4_exclusion_override ⟨1, 1, 1, 1, 1, 1⟩ false false 0 [] true rfl).1,
   (c4_exclusion_override ⟨1, 1, 1, 1, 1, 1⟩ false false 0 [] true rfl).2⟩

lemma qmUpdates_no_qm (fr : Dict) (h : List.lookup "quality_metrics" fr = none) :
    List.lookup "score_breakdown" (qmUpdates fr) = some (.obj defaultScoreBreakdown) := by
  have hv : List.lookup "score_breakdown" (qmUpdates fr) =
      some (.obj
        (if (asObj (dgetD (dgetObj fr "quality_metrics") "score_breakdown" (.obj []))).isEmpty
         then defaultScoreBreakdown
         else asObj (dgetD (dgetObj fr "quality_metrics") "score_breakdown" (.obj [])))) := rfl
  rw [hv,
    show dgetObj fr "quality_metrics" =
      asObj ((List.lookup "quality_metrics" fr).getD (.obj [])) from rfl, h]
  rfl

/-- C6 counterexample: the ERROR payload of the worker's `except` clause does
not carry the formatter's key set — it lacks `final_profile`,
`quality_metrics`, `verification_status` and the other formatter-only keys —
and its `path` is `"ERROR"`, outside the GREEN/YELLOW/RED enumeration. -/
theorem c6_error_key_set_cex :
    ((worker_error_result [] "boom").map Prod.fst ≠
      (format_result_for_frontend [] []).map Prod.fst) ∧
    dget (worker_error_result [] "boom") "verification_status" = none ∧
    dget (worker_error_result [] "boom") "path" = some (.str "ERROR") := by
  refine ⟨?_, rfl, rfl⟩
  intro h
  have h1 : (worker_error_result [] "boom").map Prod.fst = workerErrorKeys := rfl
  have h2 : (format_result_for_frontend [] []).map Prod.fst = frontendResultKeys := rfl
  rw [h1, h2] at h
  exact absurd h (by decide)

/-- C6 (amended): the formatter's output structure is stable —
`format_result_for_frontend` always returns exactly the twelve fixed
top-level keys, with `quality_metrics` always carrying `score_breakdown`
(the six-dimension zero default when the agent supplies none) and
`confidence_tier` — while the worker's error-path result instead carries
exactly `{original_data, error, confidence_score, path,
requires_human_review, review_reason}`; the score, the tier and the path are
passed through unchanged from the agent result, whatever their values —
the formatter neither clamps the score to `[0,1]` nor restricts tier or
path to the fixed enumerations — and an absent score defaults to `0`, an
absent tier or path to the out-of-enumeration string `"UNKNOWN"`. -/
theorem c6_output_structure_amended (final_result provider_info : Dict) (e : String) :
    ((format_result_for_frontend final_result provider_info).map Prod.fst =
      frontendResultKeys) ∧
    ((dget (dgetObj (format_result_for_frontend final_result provider_info) "quality_metrics")
        "score_breakdown").isSome = true) ∧
    ((dget (dgetObj (format_result_for_frontend final_result provider_info) "quality_metrics")
        "confidence_tier").isSome = true) ∧
    ((worker_error_result provider_info e).map Prod.fst = workerErrorKeys) ∧
    (dget final_result "quality_metrics" = none →
      dget (dgetObj (format_result_for_frontend final_result provider_info) "quality_metrics")
        "score_breakdown" = some (.obj defaultScoreBreakdown)) ∧
    (defaultScoreBreakdown.map Prod.fst =
      ["identity", "address", "completeness", "freshness", "enrichment", "risk"]) ∧
    (∀ v : JVal, dget final_result "confidence_score" = some v →
      dget (format_result_for_frontend final_result provider_info) "confidence_score" =
        some v) ∧
    (dget final_result "confidence_score" = none →
      dget (format_result_for_frontend final_result provider_info) "confidence_score" =
        some (.num 0)) ∧
    (∀ v : JVal, dget (dgetObj final_result "quality_metrics") "confidence_tier" = some v →
      dget (dgetObj (format_result_for_frontend final_result provider_info) "quality_metrics")
        "confidence_tier" = some v) ∧
    (dget (dgetObj final_result "quality_metrics") "confidence_tier" = none →
      dget (dgetObj (format_result_for_frontend final_result provider_info) "quality_metrics")
        "confidence_tier" = some (.str "UNKNOWN")) ∧
    (∀ v : JVal, dget (dgetObj final_result "quality_metrics") "path" = some v →
      dget (format_result_for_frontend final_result provider_info) "path" = some v) ∧
    (dget (dgetObj final_result "quality_metrics") "path" = none →
      dget (format_result_for_frontend final_result provider_info) "path" =
        some (.str "UNKNOWN")) := by
  refine ⟨rfl, ?_, ?_, rfl, ?_, rfl, ?_, ?_, ?_, ?_, ?_, ?_⟩
  · obtain ⟨v, hv⟩ : ∃ v, List.lookup "score_breakdown" (qmUpdates final_result) = some v :=
      ⟨_, rfl⟩
    have hd := lookup_dictUpdate (dgetObj final_result "quality_metrics")
      (qmUpdates final_result) "score_breakdown" v hv
    show (List.lookup "score_breakdown"
      (dictUpdate (dgetObj final_result "quality_metrics") (qmUpdates final_result))).isSome = true
    rw [hd]; rfl
  · obtain ⟨v, hv⟩ : ∃ v, List.lookup "confidence_tier" (qmUpdates final_result) = some v :=
      ⟨_, rfl⟩
    have hd := lookup_dictUpdate (dgetObj final_result "quality_metrics")
      (qmUpdates final_result) "confidence_tier" v hv
    show (List.lookup "confidence_tier"
      (dictUpdate (dgetObj final_result "quality_metrics") (qmUpdates final_result))).isSome = true
    rw [hd]; rfl
  · intro h
    exact lookup_dictUpdate _ _ _ _ (qmUpdates_no_qm final_result h)
  · intro v hq
    have hv : dget (format_result_for_frontend final_result provider_info) "confidence_score" =
        some (dgetD final_result "confidence_score" (.num 0)) := rfl
    rw [hv]; simp [dgetD, hq]
  · intro hq
    have hv : dget (format_result_for_frontend final_result provider_info) "confidence_score" =
        some (dgetD final_result "confidence_score" (.num 0)) := rfl
    rw [hv]; simp [dgetD, hq]
  · intro v ht
    have hv : List.lookup "confidence_tier" (qmUpdates final_result) =
        some (dgetD (dgetObj final_result "quality_metrics") "confidence_tier" (.str "UNKNOWN")) :=
      rfl
    simp only [dgetD, ht, Option.getD_some] at hv
    exact lookup_dictUpdate _ _ _ _ hv
  · intro ht
    have hv : List.lookup "confidence_tier" (qmUpdates final_result) =
        some (dgetD (dgetObj final_result "quality_metrics") "confidence_tier" (.str "UNKNOWN")) :=
      rfl
    simp only [dgetD, ht, Option.getD_none] at hv
    exact lookup_dictUpdate _ _ _ _ hv
  · intro v hp
    have hv : dget (format_result_for_frontend final_result provider_info) "path" =
        some (dgetD (dgetObj final_result "quality_metrics") "path" (.str "UNKNOWN")) := rfl
    rw [hv]; simp [dgetD, hp]
  · intro hp
    have hv : dget (format_result_for_frontend final_result provider_info) "path" =
        some (dgetD (dgetObj final_result "quality_metrics") "path" (.str "UNKNOWN")) := rfl
    rw [hv]; simp [dgetD, hp]

/-- The agent result of the C6 witness: an out-of-range score (2.0) and an
out-of-enumeration tier and path, to show the formatter passes them through
unchanged rather than clamping or sanitizing. -/
def c6WitnessResult : Dict :=
  [("confidence_score", .num 2),
   ("quality_metrics", .obj [("path", .str "PURPLE"), ("confidence_tier", .str "BOGUS")])]

/-- C6 witness: the amended structure evaluated on a concrete agent result
whose score lies outside `[0,1]` and whose tier and path lie outside the
fixed enumerations — all three survive the formatter unchanged. -/
theorem c6_output_structure_witness :
    ((format_result_for_frontend c6WitnessResult []).map Prod.fst = frontendResultKeys) ∧
    (dget (format_result_for_frontend c6WitnessResult []) "confidence_score" =
      some (.num 2)) ∧
    (dget (dgetObj (format_result_for_frontend c6WitnessResult []) "quality_metrics")
        "confidence_tier" = some (.str "BOGUS")) ∧
    (dget (format_result_for_frontend c6WitnessResult []) "path" = some (.str "PURPLE")) :=
  ⟨(c6_output_structure_amended c6WitnessResult [] "e").1,
   (c6_output_structure_amended c6WitnessResult [] "e").2.2.2.2.2.2.1 (.num 2) rfl,
   (c6_output_structure_amended c6WitnessResult [] "e").2.2.2.2.2.2.2.2.1 (.str "BOGUS") rfl,
   (c6_output_structure_amended c6WitnessResult [] "e").2.2.2.2.2.2.2.2.2.2.1
     (.str "PURPLE") rfl⟩

/-- C9: the `verification_status` block is fully determined by the evidence
results: `nppes_verified` is true iff the NPI registry's `result_count` is
present and nonzero, `oig_clear` is true iff `is_excluded` is absent or not
true, `license_active` is true iff the state board status is exactly
`"Active"`, `address_validated` is true iff `is_medical_facility` is true,
and `digital_footprint_score` is passed through (0 when absent).  The two
typing hypotheses pin the evidence fields to the number/boolean shapes the
agent produces. -/
theorem c9_verification_status (final_result provider_info : Dict)
    (hnum : ∀ v, dget (dgetObj final_result "npi_result") "result_count" = some v →
      ∃ n : ℚ, v = .num n)
    (hexc : ∀ v, dget (dgetObj final_result "oig_leie_result") "is_excluded" = some v →
      ∃ bb : Bool, v = .bool bb) :
    ((dget (verification_status_of final_result provider_info) "nppes_verified" =
        some (.bool true)) ↔
      (∃ n : ℚ, dget (dgetObj final_result "npi_result") "result_count" = some (.num n) ∧
        n ≠ 0)) ∧
    ((dget (verification_status_of final_result provider_info) "oig_clear" =
        some (.bool true)) ↔
      (dget (dgetObj final_result "oig_leie_result") "is_excluded" ≠ some (.bool true))) ∧
    ((dget (verification_status_of final_result provider_info) "license_active" =
        some (.bool true)) ↔
      (dget (dgetObj final_result "state_board_result") "status" = some (.str "Active"))) ∧
    ((dget (verification_status_of final_result provider_info) "address_validated" =
        some (.bool true)) ↔
      (dget (dgetObj final_result "address_result") "is_medical_facility" =
        some (.bool true))) ∧
    (dget (verification_status_of final_result provider_info) "digital_footprint_score" =
      some (dgetD final_result "digital_footprint_score" (.num 0))) := by
  refine ⟨?_, ?_, ?_, ?_, rfl⟩
  · have h1 : dget (verification_status_of final_result provider_info) "nppes_verified" =
        some (.bool (truthy (dgetD (dgetObj final_result "npi_result") "result_count" (.num 0)))) :=
      rfl
    rw [h1]
    cases hx : dget (dgetObj final_result "npi_result") "result_count" with
    | none => simp [dgetD, hx, truthy]
    | some v =>
      rcases hnum v hx with ⟨n, rfl⟩
      simp [dgetD, hx, truthy]
  · have h2 : dget (verification_status_of final_result provider_info) "oig_clear" =
        some (.bool (!truthy
          (dgetD (dgetObj final_result "oig_leie_result") "is_excluded" (.bool false)))) := rfl
    rw [h2]
    cases hx : dget (dgetObj final_result "oig_leie_result") "is_excluded" with
    | none => simp [dgetD, hx, truthy]
    | some v =>
      rcases hexc v hx with ⟨bb, rfl⟩
      cases bb <;> simp [dgetD, hx, truthy]
  · have h3 : dget (verification_status_of final_result provider_info) "license_active" =
        some (.bool (isActive (dget (dgetObj final_result "state_board_result") "status"))) := rfl
    rw [h3]
    cases hx : dget (dgetObj final_result "state_board_result") "status" with
    | none => simp [isActive]
    | some v => cases v <;> simp [isActive]
  · have h4 : dget (verification_status_of final_result provider_info) "address_validated" =
        some (dgetD (dgetObj final_result "address_result") "is_medical_facility" (.bool false)) :=
      rfl
    rw [h4]
    cases hx : dget (dgetObj final_result "address_result") "is_medical_facility" with
    | none => simp [dgetD, hx]
    | some v => simp [dgetD, hx]

/-- The agent result of the C9 witness: a registry match, no exclusion, an
active license, a medical-facility address, and a digital-footprint score. -/
def c9WitnessResult : Dict :=
  [("npi_result", .obj [("result_count", .num 3)]),
   ("oig_leie_result", .obj [("is_excluded", .bool false)]),
   ("state_board_result", .obj [("status", .str "Active")]),
   ("address_result", .obj [("is_medical_facility", .bool true)]),
   ("digital_footprint_score", .num (7 / 10))]

/-- C9 witness: the determination evaluated on a concrete agent result. -/
theorem c9_verification_status_witness :
    dget (verification_status_of c9WitnessResult []) "nppes_verified" = some (.bool true) ∧
    dget (verification_status_of c9WitnessResult []) "oig_clear" = some (.bool true) ∧
    dget (verification_status_of c9WitnessResult []) "license_active" = some (.bool true) ∧
    dget (verification_status_of c9WitnessResult []) "address_validated" = some (.bool true) ∧
    dget (verification_status_of c9WitnessResult []) "digital_footprint_score" =
      some (.num (7 / 10)) :=
  ⟨(c9_verification_status c9WitnessResult []
      (fun v hv => ⟨3, (Option.some.inj hv).symm⟩)
      (fun v hv => ⟨false, (Option.some.inj hv).symm⟩)).1.mpr ⟨3, rfl, by norm_num⟩,
   (c9_verification_status c9WitnessResult []
      (fun v hv => ⟨3, (Option.some.inj hv).symm⟩)
      (fun v hv => ⟨false, (Option.some.inj hv).symm⟩)).2.1.mpr
      (by intro hcon; injection Option.some.inj hcon with hb; exact absurd hb (by decide)),
   (c9_verification_status c9WitnessResult []
      (fun v hv => ⟨3, (Option.some.inj hv).symm⟩)
      (fun v hv => ⟨false, (Option.some.inj hv).symm⟩)).2.2.1.mpr rfl,
   (c9_verification_status c9WitnessResult []
      (fun v hv => ⟨3, (Option.some.inj hv).symm⟩)
      (fun v hv => ⟨false, (Option.some.inj hv).symm⟩)).2.2.2.1.mpr rfl,
   (c9_verification_status c9WitnessResult []
      (fun v hv => ⟨3, (Option.some.inj hv).symm⟩)
      (fun v hv => ⟨false, (Option.some.inj hv).symm⟩)).2.2.2.2⟩

end HealthAtlas
